import Mathlib

/-!
# Verification of the Network Analyzer pipeline

Shallow embedding of `backend/network_analysis.py` (class `NetworkAnalyzer`):
the address-validity filter, the per-packet feature extraction (general,
security, DNS), the pandas-style aggregations of `analyze_packet_data`, and
the two anomaly heuristics `detect_port_scanning` / `detect_ddos`.

Modelling conventions:
* Python strings are Lean `String`s, inspected through their character lists.
* Packet capture timestamps (Python floats) are modelled as rationals `ℚ`;
  the claims under study only use ordering, subtraction and division.
* A pandas `DataFrame` built from a list of row-dictionaries is modelled as
  the `List` of row records.  When the list is empty the frame has *no
  columns*, so a column subscript `df[c]` raises `KeyError: c`; fallible
  operations therefore return `Except String _` with the `KeyError` message
  in the error case.
* `sys.exit(1)` after `logger.error(msg)` is modelled as `Except.error msg`:
  the run aborts and `msg` is the surfaced failure message.  A raised scapy
  `IndexError` (a layer subscript on a packet lacking that layer) is
  likewise an `Except.error`.
* The `$` anchor of `re.match` (no MULTILINE flag) matches at the end of
  the string or just before a single newline ending the string, so the
  address regex also accepts a quad followed by one trailing `\n`.
-/

namespace NetworkAnalysis

/-- A decoded packet as scapy hands it to `NetworkAnalyzer`: presence flags
for the IP/TCP/DNS layers and the header fields the analyzer reads.
`process_packet` and `extract_security_data` read the IP and TCP fields only
behind the corresponding layer tests; `extract_dns_data`, however, reads
`packet[IP]` guarded only by the DNS test, which is modelled as an
`IndexError` result when the IP layer is absent. -/
structure Packet where
  hasIP : Bool
  src_ip : String
  dst_ip : String
  proto : Nat
  size : Nat
  time : ℚ
  hasTCP : Bool
  sport : Nat
  dport : Nat
  tcp_flags : String
  hasDNS : Bool
  dns_qd : Bool
  qname : String
  deriving Repr, DecidableEq

/-- Row of `self.df` as built by `process_packet`. -/
structure GRecord where
  src_ip : String
  dst_ip : String
  protocol : Nat
  size : Nat
  time : ℚ
  src_port : Nat
  dst_port : Nat
  tcp_flags : String
  deriving Repr, DecidableEq

/-- Row of `self.df_security` as built by `extract_security_data`. -/
structure SRecord where
  src_ip : String
  dst_ip : String
  protocol : Nat
  dst_port : Nat
  tcp_flags : String
  time : ℚ
  deriving Repr, DecidableEq

/-- Row of the DNS dataframe built by `extract_dns_data`. -/
structure DNSRecord where
  src_ip : String
  dst_ip : String
  query : String
  deriving Repr, DecidableEq

/-- `c` is an ASCII decimal digit (`[0-9]` in the regex). -/
def isDigit (c : Char) : Bool := '0' ≤ c && c ≤ '9'

/-- Full match of one octet against the regex alternation
`25[0-5]|2[0-4][0-9]|[01]?[0-9][0-9]?`, by case analysis on length:
one digit, two digits, or three characters drawn from one of the three
alternatives. -/
def isOctetChars : List Char → Bool
  | [c] => isDigit c
  | [c₁, c₂] => isDigit c₁ && isDigit c₂
  | [c₁, c₂, c₃] =>
      ((c₁ = '0' || c₁ = '1') && isDigit c₂ && isDigit c₃) ||
      (c₁ = '2' && c₂ = '5' && ('0' ≤ c₃ && c₃ ≤ '5')) ||
      (c₁ = '2' && ('0' ≤ c₂ && c₂ ≤ '4') && isDigit c₃)
  | _ => false

/-- Split a character list at every `'.'` (the dot-separated octet fields the
anchored regex `^((octet)\.){3}(octet)$` consumes, since an octet never
contains a dot). -/
def splitOnDot : List Char → List (List Char)
  | [] => [[]]
  | c :: cs =>
      if c = '.' then [] :: splitOnDot cs
      else
        match splitOnDot cs with
        | r :: rs => (c :: r) :: rs
        | [] => [[c]]

/-- Python `ip.startswith('0.')`. -/
def startsWithZeroDot (s : String) : Bool :=
  match s.data with
  | '0' :: '.' :: _ => true
  | _ => false

/-- The body of the anchored pattern, `((octet)\.){3}(octet)`, consuming
exactly the given characters: four dot-separated fields, each fully matching
the octet alternation (an octet never contains a dot, so the split is the
only possible decomposition). -/
def regexQuadMatch (cs : List Char) : Bool :=
  match splitOnDot cs with
  | [a, b, c, d] => isOctetChars a && isOctetChars b && isOctetChars c && isOctetChars d
  | _ => false

/-- Python `re.match` of the anchored pattern (no MULTILINE flag): `$`
matches at the end of the string *or* just before a single newline that ends
the string, so the match succeeds on the quad itself or on the quad followed
by one final `\n`. -/
def regexFullMatch (cs : List Char) : Bool :=
  regexQuadMatch cs ||
    (match cs.getLast? with
     | some c => c = '\n' && regexQuadMatch cs.dropLast
     | none => false)

/-- `NetworkAnalyzer.is_valid_ip`: `re.match` of the IPv4 regex
`^((25[0-5]|2[0-4][0-9]|[01]?[0-9][0-9]?)\.){3}(25[0-5]|2[0-4][0-9]|[01]?[0-9][0-9]?)$`
succeeds — including the single-trailing-newline tolerance of `$` — and the
string does not start with the two characters `0.`. -/
def is_valid_ip (ip : String) : Bool :=
  regexFullMatch ip.data && !startsWithZeroDot ip

/-- `NetworkAnalyzer.process_packet`: one general-traffic row, or `None` when
the packet lacks an IP layer or an address fails `is_valid_ip`.  TCP fields
default to `0` / `""` when the TCP layer is absent. -/
def process_packet (p : Packet) : Option GRecord :=
  if p.hasIP then
    if is_valid_ip p.src_ip && is_valid_ip p.dst_ip then
      some { src_ip := p.src_ip, dst_ip := p.dst_ip, protocol := p.proto,
             size := p.size, time := p.time,
             src_port := if p.hasTCP then p.sport else 0,
             dst_port := if p.hasTCP then p.dport else 0,
             tcp_flags := if p.hasTCP then p.tcp_flags else "" }
    else none
  else none

/-- Loop body of `NetworkAnalyzer.extract_security_data` for one packet:
the same IP-layer and `is_valid_ip` guards as `process_packet`. -/
def security_record (p : Packet) : Option SRecord :=
  if p.hasIP then
    if is_valid_ip p.src_ip && is_valid_ip p.dst_ip then
      some { src_ip := p.src_ip, dst_ip := p.dst_ip, protocol := p.proto,
             dst_port := if p.hasTCP then p.dport else 0,
             tcp_flags := if p.hasTCP then p.tcp_flags else "",
             time := p.time }
    else none
  else none

/-- Loop body of `NetworkAnalyzer.extract_dns_data` for one packet.  The code
tests only `DNS in packet and packet[DNS].qd` before reading
`packet[IP].src` / `packet[IP].dst`: a packet with a DNS question section
but no IPv4 layer raises scapy's `IndexError` (`Layer [IP] not found`),
aborting the extraction.  Otherwise a row is produced exactly when both
addresses pass `is_valid_ip`. -/
def dns_record (p : Packet) : Except String (Option DNSRecord) :=
  if p.hasDNS && p.dns_qd then
    if p.hasIP then
      if is_valid_ip p.src_ip && is_valid_ip p.dst_ip then
        Except.ok (some { src_ip := p.src_ip, dst_ip := p.dst_ip, query := p.qname })
      else Except.ok none
    else Except.error "IndexError: Layer [IP] not found"
  else Except.ok none

/-- `NetworkAnalyzer.extract_dns_data`: the loop over the packet list,
appending each produced row; an `IndexError` raised for any packet aborts
the whole function. -/
def extract_dns_data : List Packet → Except String (List DNSRecord)
  | [] => Except.ok []
  | p :: rest => do
      let r ← dns_record p
      let rs ← extract_dns_data rest
      match r with
      | some rec => return (rec :: rs)
      | none => return rs

/-- Default dictionary of `load_protocol_map` (no `protocol_map.json` file
present, the `FileNotFoundError` branch). -/
def protocol_map : List (Nat × String) :=
  [(0, "HOPOPT"), (1, "ICMP"), (2, "IGMP"), (6, "TCP"), (17, "UDP"),
   (19, "CHARGEN"), (37, "Time"), (89, "OSPF"), (118, "STP"), (120, "SMP"),
   (127, "Private"), (170, "EMFAS"), (240, "Experimental")]

/-- `NetworkAnalyzer.protocol_name`: dictionary lookup with the
`Unknown(N)` fallback. -/
def protocol_name (n : Nat) : String :=
  match protocol_map.lookup n with
  | some s => s
  | none => "Unknown(" ++ Nat.repr n ++ ")"

/-! ## Aggregation Engine (`analyze_packet_data`), viewed as key → count maps -/

/-- `self.df["size"].sum()`. -/
def total_bandwidth (rs : List GRecord) : Nat :=
  (rs.map GRecord.size).sum

/-- Protocol distribution: `value_counts` of the name-resolved protocol
column, as a map from protocol name to count. -/
def protocolCount (rs : List GRecord) (p : String) : Nat :=
  rs.countP (fun r => protocol_name r.protocol == p)

/-- `groupby(["src_ip", "dst_ip"]).size()` as a map from host pair to count;
also the `transform("sum")` denominator of the per-protocol share table. -/
def pairCount (rs : List GRecord) (s d : String) : Nat :=
  rs.countP (fun r => r.src_ip == s && r.dst_ip == d)

/-- One `Count` cell of `ip_communication_protocols`:
`groupby(["src_ip", "dst_ip", "protocol"]).size()`. -/
def pairProtoCount (rs : List GRecord) (s d p : String) : Nat :=
  rs.countP (fun r => r.src_ip == s && r.dst_ip == d && protocol_name r.protocol == p)

/-- The `Percentage` column of `ip_communication_protocols`: the row count
divided by its own host pair's total, times 100. -/
def pairProtoPercentage (rs : List GRecord) (s d p : String) : ℚ :=
  (pairProtoCount rs s d p : ℚ) / (pairCount rs s d : ℚ) * 100

/-- `groupby(["src_ip", "dst_ip", "src_port", "dst_port", "protocol"]).size()`
as a map from 5-tuple to count. -/
def flowCount (rs : List GRecord) (s d : String) (sp dp : Nat) (p : String) : Nat :=
  rs.countP (fun r =>
    r.src_ip == s && r.dst_ip == d && r.src_port == sp && r.dst_port == dp &&
      protocol_name r.protocol == p)

/-! ## Anomaly Detector -/

/-- The SYN filter of `detect_port_scanning`: protocol 6 and the character
`S` occurring in the TCP flags string. -/
def syn_packets (rows : List SRecord) : List SRecord :=
  rows.filter (fun r => r.protocol == 6 && r.tcp_flags.data.contains 'S')

/-- The index of `syn_packets.groupby(['src_ip', 'dst_port']).size()`: one
entry per distinct (source IP, destination port) pair among the SYN rows. -/
def scanPairs (rows : List SRecord) : List (String × Nat) :=
  ((syn_packets rows).map (fun r => (r.src_ip, r.dst_port))).dedup

/-- `unique_ports_per_ip`: for each source appearing among the SYN rows, the
number of distinct destination ports it probed (second `groupby` stage). -/
def unique_ports_per_ip (rows : List SRecord) : List (String × Nat) :=
  ((scanPairs rows).map Prod.fst).dedup.map
    (fun s => (s, (scanPairs rows).countP (fun q => q.1 == s)))

/-- The `potential_scanners` rows: sources whose distinct-port count meets
the threshold. -/
def potential_scanners (rows : List SRecord) (threshold : Nat) : List (String × Nat) :=
  (unique_ports_per_ip rows).filter (fun x => decide (threshold ≤ x.2))

/-- `NetworkAnalyzer.detect_port_scanning`.  A security frame built from an
empty row list has no columns, so the subscript
`self.df_security['protocol']` raises `KeyError`; otherwise the two-stage
grouping runs and the flagged rows are returned. -/
def detect_port_scanning (rows : List SRecord) (threshold : Nat) :
    Except String (List (String × Nat)) :=
  if rows.isEmpty then .error "KeyError: protocol"
  else .ok (potential_scanners rows threshold)

/-- `self.df_security['time'].max() - self.df_security['time'].min()`
(meaningful only for a non-empty frame; `unbot'` supplies a dummy for `[]`). -/
def time_span (rows : List SRecord) : ℚ :=
  ((rows.map SRecord.time).maximum.unbot' 0) - ((rows.map SRecord.time).minimum.untop' 0)

/-- The index of `packet_rate[packet_rate > rate_threshold]`: destination
IPs present in the rows whose packet count divided by the time span exceeds
the threshold. -/
def ddos_targets (rows : List SRecord) (rate_threshold : ℚ) : List String :=
  (rows.map SRecord.dst_ip).dedup.filter
    (fun d => decide (rate_threshold < (rows.countP (fun r => r.dst_ip == d) : ℚ) / time_span rows))

/-- `NetworkAnalyzer.detect_ddos`.  On a frame built from an empty row list
the subscript `self.df_security['time']` raises `KeyError`; with a zero
time span the function returns an empty series; otherwise the flagged
destination IPs. -/
def detect_ddos (rows : List SRecord) (rate_threshold : ℚ) :
    Except String (List String) :=
  if rows.isEmpty then .error "KeyError: time"
  else if time_span rows = 0 then .ok []
  else .ok (ddos_targets rows rate_threshold)

/-! ## Pipeline entry (`run`, up to the aggregation step) -/

/-- `NetworkAnalyzer.read_pcap`: an empty packet list aborts the run with the
logged failure `No packets found` (`sys.exit(1)`). -/
def read_pcap (pkts : List Packet) : Except String (List Packet) :=
  if pkts.isEmpty then .error "No packets found" else .ok pkts

/-- `NetworkAnalyzer.extract_packet_data`: the rows surviving
`process_packet`; an empty result aborts the run with the logged failure
`No valid IP packets found for analysis.` (`sys.exit(1)`). -/
def extract_packet_data (pkts : List Packet) : Except String (List GRecord) :=
  let recs := pkts.filterMap process_packet
  if recs.isEmpty then .error "No valid IP packets found for analysis." else .ok recs

/-- The front of `NetworkAnalyzer.run`: read, extract, then aggregate.  The
aggregation step (here represented by `total_bandwidth`, the first quantity
`analyze_packet_data` computes) is reached only when both earlier stages
succeed. -/
def run_pipeline (pkts : List Packet) : Except String (List GRecord × Nat) := do
  let ps ← read_pcap pkts
  let rs ← extract_packet_data ps
  return (rs, total_bandwidth rs)

/-! ## Spec-side address predicate (for the address-validity claims) -/

/-- Decimal value of a digit string (most significant first). -/
def digitsVal (cs : List Char) : Nat :=
  cs.foldl (fun n c => 10 * n + (c.toNat - 48)) 0

/-- Modelled from the spec's words (\"syntactically valid IPv4 dotted-quad:
four octets, each 0-255\"): one octet field, one to three decimal digits
whose value is at most 255. -/
def specOctet (cs : List Char) : Bool :=
  !cs.isEmpty && decide (cs.length ≤ 3) && cs.all isDigit && decide (digitsVal cs ≤ 255)

/-- Modelled from the spec's words: a syntactically valid IPv4 dotted-quad as
a character sequence — four dot-separated octet fields each satisfying
`specOctet`. -/
def specQuadChars (cs : List Char) : Bool :=
  match splitOnDot cs with
  | [a, b, c, d] => specOctet a && specOctet b && specOctet c && specOctet d
  | _ => false

/-- Modelled from the spec's words: a syntactically valid IPv4 dotted-quad. -/
def specDottedQuad (s : String) : Bool :=
  specQuadChars s.data

/-- The full language the code's address test accepts, spec-side: a valid
dotted-quad, optionally followed by the single trailing newline that
Python's `$` anchor tolerates. -/
def specDottedQuadNL (s : String) : Bool :=
  specQuadChars s.data ||
    (match s.data.getLast? with
     | some c => c = '\n' && specQuadChars s.data.dropLast
     | none => false)

/-- Claim-side quantity for port-scan detection: the number of distinct
destination ports among one source's TCP SYN rows. -/
def distinctSynPorts (rows : List SRecord) (ip : String) : Nat :=
  (((syn_packets rows).filter (fun r => r.src_ip == ip)).map SRecord.dst_port).dedup.length

example : is_valid_ip "1.2.3.4" = true := by decide
example : is_valid_ip "0.1.2.3" = false := by decide
example : is_valid_ip "1.01.2.3" = true := by decide
example : is_valid_ip "1.2.3.007" = true := by decide
example : is_valid_ip "256.1.1.1" = false := by decide
example : is_valid_ip "1.2.3" = false := by decide
example : is_valid_ip "00.1.2.3" = true := by decide
example : is_valid_ip "1.2.3.4\n" = true := by decide
example : is_valid_ip "1.2.3.4\n\n" = false := by decide
example : is_valid_ip "1.2.3.\n" = false := by decide
example : specDottedQuad "0.1.2.3" = true := by decide
example : specDottedQuad "0255.1.2.3" = false := by decide
example : specDottedQuad "1.2.3.4\n" = false := by decide
example : specDottedQuadNL "1.2.3.4\n" = true := by decide
example :
    process_packet ⟨true, "1.2.3.4", "0.1.2.3", 6, 60, 0, true, 1, 2, "S", false, false, ""⟩ =
      none := by decide

/-! ## The regex octet language is exactly "1-3 decimal digits, value ≤ 255" -/

lemma char_le_iff_toNat {a b : Char} : a ≤ b ↔ a.toNat ≤ b.toNat := Iff.rfl

lemma char_eq_iff_toNat {a b : Char} : a = b ↔ a.toNat = b.toNat :=
  ⟨fun h => by rw [h], fun h => by
    have h1 := Char.ofNat_toNat a
    rw [h, Char.ofNat_toNat b] at h1
    exact h1.symm⟩

lemma isDigit_iff {c : Char} : isDigit c = true ↔ 48 ≤ c.toNat ∧ c.toNat ≤ 57 := by
  simp only [isDigit, Bool.and_eq_true, decide_eq_true_eq, char_le_iff_toNat]
  exact Iff.rfl

/-- The octet alternation of the `is_valid_ip` regex accepts exactly the
fields the spec describes as octets: one to three decimal digits whose
value is at most 255. -/
lemma isOctetChars_eq_specOctet (cs : List Char) : isOctetChars cs = specOctet cs := by
  rw [Bool.eq_iff_iff]
  match cs with
  | [] => simp [isOctetChars, specOctet]
  | [c] =>
      simp only [isOctetChars, specOctet, digitsVal, List.foldl, List.all_cons, List.all_nil,
        Bool.and_eq_true, Bool.and_true, decide_eq_true_eq, List.isEmpty_cons, Bool.not_false,
        Bool.true_and, List.length_cons, List.length_nil, isDigit_iff]
      omega
  | [c₁, c₂] =>
      simp only [isOctetChars, specOctet, digitsVal, List.foldl, List.all_cons, List.all_nil,
        Bool.and_eq_true, Bool.and_true, decide_eq_true_eq, List.isEmpty_cons, Bool.not_false,
        Bool.true_and, List.length_cons, List.length_nil, isDigit_iff]
      omega
  | [c₁, c₂, c₃] =>
      simp only [isOctetChars, specOctet, digitsVal, List.foldl, List.all_cons, List.all_nil,
        Bool.and_eq_true, Bool.and_true, Bool.or_eq_true, decide_eq_true_eq, List.isEmpty_cons,
        Bool.not_false, Bool.true_and, List.length_cons, List.length_nil, isDigit_iff,
        char_eq_iff_toNat, char_le_iff_toNat]
      have h0 : ('0' : Char).toNat = 48 := rfl
      have h1 : ('1' : Char).toNat = 49 := rfl
      have h2 : ('2' : Char).toNat = 50 := rfl
      have h4 : ('4' : Char).toNat = 52 := rfl
      have h5 : ('5' : Char).toNat = 53 := rfl
      rw [h0, h1, h2, h4, h5]
      omega
  | c₁ :: c₂ :: c₃ :: c₄ :: rest =>
      have hlen : ¬ ((c₁ :: c₂ :: c₃ :: c₄ :: rest).length ≤ 3) := by
        simp only [List.length_cons]
        omega
      simp [isOctetChars, specOctet, hlen]

/-- The quad part of the regex accepts exactly the spec-side dotted quads. -/
lemma regexQuadMatch_eq_spec (cs : List Char) : regexQuadMatch cs = specQuadChars cs := by
  unfold regexQuadMatch specQuadChars
  generalize splitOnDot cs = l
  match l with
  | [] => rfl
  | [a] => rfl
  | [a, b] => rfl
  | [a, b, c] => rfl
  | [a, b, c, d] => simp [isOctetChars_eq_specOctet]
  | a :: b :: c :: d :: e :: t => rfl

/-- `is_valid_ip` is exactly: a spec-side dotted quad — up to the single
trailing newline that `$` tolerates — whose string does not start with the
two characters `0.`. -/
lemma is_valid_ip_eq_spec (s : String) :
    is_valid_ip s = (specDottedQuadNL s && !startsWithZeroDot s) := by
  simp only [is_valid_ip, specDottedQuadNL, regexFullMatch, regexQuadMatch_eq_spec]

lemma is_valid_ip_true_iff {s : String} :
    is_valid_ip s = true ↔ specDottedQuadNL s = true ∧ startsWithZeroDot s = false := by
  rw [is_valid_ip_eq_spec]
  simp [Bool.and_eq_true]

/-- A spec-side dotted quad is in particular in the language the code
accepts. -/
lemma specDottedQuadNL_of_quad {s : String} (h : specDottedQuad s = true) :
    specDottedQuadNL s = true := by
  unfold specDottedQuad at h
  unfold specDottedQuadNL
  rw [h]
  rfl

/-! ## Acceptance characterizations for the extraction paths -/

lemma process_packet_isSome_iff {p : Packet} :
    (process_packet p).isSome = true ↔
      p.hasIP = true ∧ is_valid_ip p.src_ip = true ∧ is_valid_ip p.dst_ip = true := by
  unfold process_packet
  cases hip : p.hasIP with
  | false => simp [hip]
  | true =>
      cases hs : is_valid_ip p.src_ip with
      | false => simp [hip, hs]
      | true =>
          cases hd : is_valid_ip p.dst_ip with
          | false => simp [hip, hs, hd]
          | true => simp [hip, hs, hd]

lemma security_record_isSome_iff {p : Packet} :
    (security_record p).isSome = true ↔
      p.hasIP = true ∧ is_valid_ip p.src_ip = true ∧ is_valid_ip p.dst_ip = true := by
  unfold security_record
  cases hip : p.hasIP with
  | false => simp [hip]
  | true =>
      cases hs : is_valid_ip p.src_ip with
      | false => simp [hip, hs]
      | true =>
          cases hd : is_valid_ip p.dst_ip with
          | false => simp [hip, hs, hd]
          | true => simp [hip, hs, hd]

lemma process_packet_eq_none_of_invalid {p : Packet}
    (h : is_valid_ip p.src_ip = false ∨ is_valid_ip p.dst_ip = false) :
    process_packet p = none := by
  rw [← Option.not_isSome_iff_eq_none]
  intro hsome
  rcases process_packet_isSome_iff.mp hsome with ⟨-, hs, hd⟩
  rcases h with h | h
  · rw [hs] at h; exact Bool.noConfusion h
  · rw [hd] at h; exact Bool.noConfusion h

lemma security_record_eq_none_of_invalid {p : Packet}
    (h : is_valid_ip p.src_ip = false ∨ is_valid_ip p.dst_ip = false) :
    security_record p = none := by
  rw [← Option.not_isSome_iff_eq_none]
  intro hsome
  rcases security_record_isSome_iff.mp hsome with ⟨-, hs, hd⟩
  rcases h with h | h
  · rw [hs] at h; exact Bool.noConfusion h
  · rw [hd] at h; exact Bool.noConfusion h

/-! ## Claim theorems: address validity (C1, C9, C10) -/

/-- C1 counterexample.  The packet `1.2.3.4 → 0.1.2.3` has two syntactically
valid dotted-quad addresses and its *source* does not begin with octet 0,
so the claim says it is accepted; the code drops it from both the general
and the security path, because the leading-zero rejection is also applied
to the destination address. -/
theorem c1_counterexample :
    specDottedQuad "1.2.3.4" = true ∧ specDottedQuad "0.1.2.3" = true ∧
    startsWithZeroDot "1.2.3.4" = false ∧
    process_packet ⟨true, "1.2.3.4", "0.1.2.3", 6, 60, 0, true, 4321, 80, "S", false, false, ""⟩
      = none ∧
    security_record ⟨true, "1.2.3.4", "0.1.2.3", 6, 60, 0, true, 4321, 80, "S", false, false, ""⟩
      = none := by decide

/-- C1 (amended): an IP packet whose source and destination are both
syntactically valid dotted-quads and where *neither* address begins with
octet 0 is accepted into both the general-traffic and the security outputs;
a packet where some address is outside the code's accepted address language
— it is neither a valid dotted-quad nor a valid dotted-quad followed by the
single trailing newline that Python's `$` anchor tolerates — or where the
source *or destination* begins with the two characters `0.`, is dropped
from both.  The last conjunct records the newline tolerance concretely. -/
theorem c1_amended (p : Packet) :
    (p.hasIP = true →
      specDottedQuad p.src_ip = true → specDottedQuad p.dst_ip = true →
      startsWithZeroDot p.src_ip = false → startsWithZeroDot p.dst_ip = false →
      (process_packet p).isSome = true ∧ (security_record p).isSome = true) ∧
    ((specDottedQuadNL p.src_ip = false ∨ specDottedQuadNL p.dst_ip = false ∨
      startsWithZeroDot p.src_ip = true ∨ startsWithZeroDot p.dst_ip = true) →
      process_packet p = none ∧ security_record p = none) ∧
    is_valid_ip "1.2.3.4\n" = true := by
  refine ⟨?_, ?_, by decide⟩
  · intro hip hqs hqd hzs hzd
    have hs : is_valid_ip p.src_ip = true :=
      is_valid_ip_true_iff.mpr ⟨specDottedQuadNL_of_quad hqs, hzs⟩
    have hd : is_valid_ip p.dst_ip = true :=
      is_valid_ip_true_iff.mpr ⟨specDottedQuadNL_of_quad hqd, hzd⟩
    exact ⟨process_packet_isSome_iff.mpr ⟨hip, hs, hd⟩,
           security_record_isSome_iff.mpr ⟨hip, hs, hd⟩⟩
  · intro h
    have hinv : is_valid_ip p.src_ip = false ∨ is_valid_ip p.dst_ip = false := by
      rcases h with h | h | h | h
      · left
        rw [is_valid_ip_eq_spec, h]
        rfl
      · right
        rw [is_valid_ip_eq_spec, h]
        rfl
      · left
        rw [is_valid_ip_eq_spec, h]
        simp
      · right
        rw [is_valid_ip_eq_spec, h]
        simp
    exact ⟨process_packet_eq_none_of_invalid hinv, security_record_eq_none_of_invalid hinv⟩

/-- C1 amended, applied at the packet `1.2.3.4 → 8.8.8.8` (accepted) and at
the packet of the counterexample kind `1.2.3.4 → 0.9.9.9` (dropped). -/
theorem c1_amended_witness :
    ((process_packet ⟨true, "1.2.3.4", "8.8.8.8", 17, 90, 1, false, 0, 0, "", false, false, ""⟩).isSome
        = true ∧
      (security_record ⟨true, "1.2.3.4", "8.8.8.8", 17, 90, 1, false, 0, 0, "", false, false, ""⟩).isSome
        = true) ∧
    (process_packet ⟨true, "1.2.3.4", "0.9.9.9", 17, 90, 1, false, 0, 0, "", false, false, ""⟩
        = none ∧
      security_record ⟨true, "1.2.3.4", "0.9.9.9", 17, 90, 1, false, 0, 0, "", false, false, ""⟩
        = none) :=
  ⟨(c1_amended _).1 (by decide) (by decide) (by decide) (by decide) (by decide),
   (c1_amended _).2.1 (by decide)⟩

/-- C9: a packet whose destination address begins with the two characters
`0.` is dropped by both the general-traffic and the security extraction
paths, whatever its source address is: `is_valid_ip` is applied to the
destination as well, and it rejects any string starting with `0.`. -/
theorem c9_dst_leading_zero_dropped (p : Packet)
    (h : startsWithZeroDot p.dst_ip = true) :
    process_packet p = none ∧ security_record p = none := by
  have hd : is_valid_ip p.dst_ip = false := by
    rw [is_valid_ip_eq_spec, h]
    simp
  exact ⟨process_packet_eq_none_of_invalid (Or.inr hd),
         security_record_eq_none_of_invalid (Or.inr hd)⟩

/-- C9 applied at a packet with fully valid source `9.9.9.9` and destination
`0.1.2.3`. -/
theorem c9_witness :
    startsWithZeroDot "0.1.2.3" = true ∧
    process_packet ⟨true, "9.9.9.9", "0.1.2.3", 6, 60, 0, true, 1, 2, "S", false, false, ""⟩
      = none ∧
    security_record ⟨true, "9.9.9.9", "0.1.2.3", 6, 60, 0, true, 1, 2, "S", false, false, ""⟩
      = none := by
  refine ⟨by decide, ?_⟩
  exact c9_dst_leading_zero_dropped _ (by decide)

/-- C10: among syntactically valid dotted-quads, `is_valid_ip` rejects for a
leading zero exactly the addresses starting with the two characters `0.`
(first octet the single digit 0); addresses with leading-zero digits in
later octets, such as `1.01.2.3` and `1.2.3.007`, pass the check, and a
packet carrying them is accepted into both extraction outputs. -/
theorem c10_leading_zero_only_first_octet :
    (∀ s : String, specDottedQuad s = true →
      (is_valid_ip s = true ↔ startsWithZeroDot s = false)) ∧
    is_valid_ip "1.01.2.3" = true ∧ is_valid_ip "1.2.3.007" = true ∧
    (process_packet ⟨true, "1.01.2.3", "1.2.3.007", 6, 60, 0, true, 1, 2, "S", false, false, ""⟩).isSome
      = true ∧
    (security_record ⟨true, "1.01.2.3", "1.2.3.007", 6, 60, 0, true, 1, 2, "S", false, false, ""⟩).isSome
      = true := by
  refine ⟨fun s hq => ?_, by decide, by decide, by decide, by decide⟩
  rw [is_valid_ip_true_iff]
  constructor
  · exact And.right
  · exact fun hz => ⟨specDottedQuadNL_of_quad hq, hz⟩

/-- C10's quantified part applied at the concrete address `1.01.2.3`. -/
theorem c10_witness :
    specDottedQuad "1.01.2.3" = true ∧ is_valid_ip "1.01.2.3" = true :=
  ⟨by decide,
   (c10_leading_zero_only_first_octet.1 "1.01.2.3" (by decide)).mpr (by decide)⟩

/-! ## Claim theorems: DNS extraction (C4) -/

/-- C4 counterexample.  This packet has a DNS question section, so the claim
says a DNS record is produced without any IPv4 validity filtering; but its
source address `0.1.2.3` fails `is_valid_ip`, and `extract_dns_data` — which
does apply the filter — produces nothing. -/
theorem c4_counterexample :
    Packet.hasDNS
        ⟨true, "0.1.2.3", "1.2.3.4", 17, 80, 0, false, 0, 0, "", true, true, "example.com."⟩
      = true ∧
    Packet.dns_qd
        ⟨true, "0.1.2.3", "1.2.3.4", 17, 80, 0, false, 0, 0, "", true, true, "example.com."⟩
      = true ∧
    dns_record
        ⟨true, "0.1.2.3", "1.2.3.4", 17, 80, 0, false, 0, 0, "", true, true, "example.com."⟩
      = Except.ok none ∧
    extract_dns_data
        [⟨true, "0.1.2.3", "1.2.3.4", 17, 80, 0, false, 0, 0, "", true, true, "example.com."⟩]
      = Except.ok [] :=
  ⟨rfl, rfl, rfl, rfl⟩

/-- C4 (amended): for IP-layer packets, DNS extraction produces the
(source IP, destination IP, query name) record exactly when the packet has
a DNS question section *and* both addresses pass the same `is_valid_ip`
filter used by the general-traffic and security paths; a packet with a DNS
question section but no IPv4 layer makes the extraction raise `IndexError`
(the code reads `packet[IP]` guarded only by the DNS test). -/
theorem c4_amended (p : Packet) :
    ((p.hasDNS && p.dns_qd) = true → p.hasIP = false →
      dns_record p = Except.error "IndexError: Layer [IP] not found") ∧
    (p.hasIP = true →
      (dns_record p = Except.ok (some ⟨p.src_ip, p.dst_ip, p.qname⟩) ↔
        p.hasDNS = true ∧ p.dns_qd = true ∧
          is_valid_ip p.src_ip = true ∧ is_valid_ip p.dst_ip = true)) ∧
    (∀ r : DNSRecord, dns_record p = Except.ok (some r) →
      r.src_ip = p.src_ip ∧ r.dst_ip = p.dst_ip ∧ r.query = p.qname) := by
  refine ⟨?_, ?_, ?_⟩
  · intro hg hip
    unfold dns_record
    rw [hg, hip]
    rfl
  · intro hip
    unfold dns_record
    rw [hip]
    cases hg : (p.hasDNS && p.dns_qd) with
    | false =>
        constructor
        · intro hcontr
          have hcontr' : (Except.ok none : Except String (Option DNSRecord))
              = Except.ok (some ⟨p.src_ip, p.dst_ip, p.qname⟩) := hcontr
          simp at hcontr'
        · rintro ⟨h1, h2, -, -⟩
          rw [h1, h2] at hg
          exact Bool.noConfusion hg
    | true =>
        cases hv : (is_valid_ip p.src_ip && is_valid_ip p.dst_ip) with
        | false =>
            constructor
            · intro hcontr
              have hcontr' : (Except.ok none : Except String (Option DNSRecord))
                  = Except.ok (some ⟨p.src_ip, p.dst_ip, p.qname⟩) := hcontr
              simp at hcontr'
            · rintro ⟨-, -, h3, h4⟩
              rw [h3, h4] at hv
              exact Bool.noConfusion hv
        | true =>
            constructor
            · intro _
              have hgs := hg
              have hvs := hv
              rw [Bool.and_eq_true] at hgs hvs
              exact ⟨hgs.1, hgs.2, hvs.1, hvs.2⟩
            · intro _
              rfl
  · intro r hr
    unfold dns_record at hr
    cases hg : (p.hasDNS && p.dns_qd) with
    | false =>
        rw [hg] at hr
        have hr' : (Except.ok none : Except String (Option DNSRecord))
            = Except.ok (some r) := hr
        simp at hr'
    | true =>
        rw [hg] at hr
        cases hip : p.hasIP with
        | false =>
            rw [hip] at hr
            have hr' : (Except.error "IndexError: Layer [IP] not found"
                : Except String (Option DNSRecord)) = Except.ok (some r) := hr
            simp at hr'
        | true =>
            rw [hip] at hr
            cases hv : (is_valid_ip p.src_ip && is_valid_ip p.dst_ip) with
            | false =>
                rw [hv] at hr
                have hr' : (Except.ok none : Except String (Option DNSRecord))
                    = Except.ok (some r) := hr
                simp at hr'
            | true =>
                rw [hv] at hr
                have hr' : (Except.ok (some ⟨p.src_ip, p.dst_ip, p.qname⟩)
                    : Except String (Option DNSRecord)) = Except.ok (some r) := hr
                simp only [Except.ok.injEq, Option.some.injEq] at hr'
                rw [← hr']
                exact ⟨rfl, rfl, rfl⟩

/-- C4 amended, applied at a DNS query packet `8.8.4.4 → 8.8.8.8` (record
produced) and at a DNS-question packet with no IPv4 layer (extraction
raises). -/
theorem c4_amended_witness :
    dns_record ⟨true, "8.8.4.4", "8.8.8.8", 17, 80, 0, false, 0, 0, "", true, true, "example.com."⟩
      = Except.ok (some ⟨"8.8.4.4", "8.8.8.8", "example.com."⟩) ∧
    dns_record ⟨false, "1.2.3.4", "5.6.7.8", 17, 80, 0, false, 0, 0, "", true, true, "v6.example."⟩
      = Except.error "IndexError: Layer [IP] not found" :=
  ⟨((c4_amended _).2.1 rfl).mpr ⟨rfl, rfl, by decide, by decide⟩,
   (c4_amended _).1 rfl rfl⟩

/-! ## Claim theorems: empty security set (C5) -/

/-- C5 evaluated at the failing input.  With an *empty* security record set,
`pd.DataFrame([])` has no columns, so `detect_port_scanning` raises
`KeyError` at `self.df_security['protocol']` and `detect_ddos` raises
`KeyError` at `self.df_security['time']` (at the default thresholds 100 and
1000) — neither heuristic runs to completion with an empty result, contrary
to the claim and to the spec's DegradedSecurityCoverage requirement. -/
theorem c5_empty_security_raises :
    detect_port_scanning [] 100 = Except.error "KeyError: protocol" ∧
    detect_ddos [] 1000 = Except.error "KeyError: time" :=
  ⟨rfl, rfl⟩

/-! ## Claim theorems: terminal pipeline errors (C6) -/

/-- C6: an empty input packet sequence aborts the run with the
`No packets found` failure (the spec's SourceUnavailable), and a non-empty
sequence whose extraction yields zero valid general-traffic rows aborts —
before the aggregation step runs — with the distinct
`No valid IP packets found for analysis.` failure (NoAnalyzableTraffic);
the two surfaced messages differ, and neither case returns an `ok` result. -/
theorem c6_distinct_terminal_errors :
    run_pipeline [] = Except.error "No packets found" ∧
    (∀ pkts : List Packet, pkts ≠ [] → pkts.filterMap process_packet = [] →
      run_pipeline pkts = Except.error "No valid IP packets found for analysis.") ∧
    ("No packets found" : String) ≠ "No valid IP packets found for analysis." := by
  refine ⟨rfl, ?_, by decide⟩
  intro pkts hne hempty
  cases pkts with
  | nil => exact absurd rfl hne
  | cons a t =>
      have key : extract_packet_data (a :: t)
          = Except.error "No valid IP packets found for analysis." := by
        unfold extract_packet_data
        rw [hempty]
        rfl
      simp [run_pipeline, show read_pcap (a :: t) = Except.ok (a :: t) from rfl, key,
        Bind.bind, Except.bind, Functor.map, Except.map]

/-- C6's second branch applied at a concrete one-packet input (a non-IP
frame, which `process_packet` drops). -/
theorem c6_witness :
    run_pipeline [⟨false, "", "", 0, 0, 0, false, 0, 0, "", false, false, ""⟩]
      = Except.error "No valid IP packets found for analysis." :=
  c6_distinct_terminal_errors.2.1 _ (by decide) (by decide)

/-! ## Claim theorems: port-scan detection (C2) -/

/-- Counting, inside a deduplicated pair list, the entries with first
component `a` is the same as counting the distinct second components among
the entries with first component `a`. -/
lemma countP_dedup_fst (l : List (String × Nat)) (a : String) :
    l.dedup.countP (fun q => q.1 == a)
      = ((l.filter (fun q => q.1 == a)).map Prod.snd).dedup.length := by
  induction l with
  | nil => rfl
  | cons p l ih =>
      by_cases hp : p ∈ l
      · rw [List.dedup_cons_of_mem hp]
        by_cases ha : p.1 = a
        · have hmem : p.2 ∈ (l.filter (fun q => q.1 == a)).map Prod.snd :=
            List.mem_map.mpr ⟨p, List.mem_filter.mpr ⟨hp, by simp [ha]⟩, rfl⟩
          rw [List.filter_cons_of_pos (by simp [ha]), List.map_cons,
            List.dedup_cons_of_mem hmem]
          exact ih
        · rw [List.filter_cons_of_neg (by simp [ha])]
          exact ih
      · rw [List.dedup_cons_of_not_mem hp, List.countP_cons]
        by_cases ha : p.1 = a
        · have hnmem : p.2 ∉ (l.filter (fun q => q.1 == a)).map Prod.snd := by
            intro hmem
            rcases List.mem_map.mp hmem with ⟨q, hqf, hq2⟩
            rcases List.mem_filter.mp hqf with ⟨hql, hqa⟩
            apply hp
            have hq1 : q.1 = p.1 := by
              rw [ha]
              exact beq_iff_eq.mp hqa
            have hqp : q = p := Prod.ext hq1 hq2
            rwa [← hqp]
          rw [List.filter_cons_of_pos (by simp [ha]), List.map_cons,
            List.dedup_cons_of_not_mem hnmem]
          simp [ha, ih]
        · rw [List.filter_cons_of_neg (by simp [ha])]
          simp [ha, ih]

/-- The second `groupby` stage of `detect_port_scanning` counts, for a given
source IP, exactly the distinct destination ports of that source's SYN
rows. -/
lemma scanPairs_countP_eq (rows : List SRecord) (ip : String) :
    (scanPairs rows).countP (fun q => q.1 == ip) = distinctSynPorts rows ip := by
  unfold scanPairs distinctSynPorts
  rw [countP_dedup_fst, List.filter_map, List.map_map]
  rfl

lemma mem_fst_of_le_countP {rows : List SRecord} {th : Nat} {ip : String}
    (hth : 0 < th) (h : th ≤ (scanPairs rows).countP (fun q => q.1 == ip)) :
    ip ∈ (scanPairs rows).map Prod.fst := by
  rcases List.countP_pos_iff.mp (lt_of_lt_of_le hth h) with ⟨q, hq, hqa⟩
  exact List.mem_map.mpr ⟨q, hq, beq_iff_eq.mp hqa⟩

/-- A source IP appears in the `potential_scanners` table exactly when it
occurs among the SYN (source, port) pairs and its distinct-pair count meets
the threshold. -/
lemma mem_scanners_iff (rows : List SRecord) (th : Nat) (ip : String) :
    ip ∈ (potential_scanners rows th).map Prod.fst ↔
      (ip ∈ (scanPairs rows).map Prod.fst ∧
        th ≤ (scanPairs rows).countP (fun q => q.1 == ip)) := by
  unfold potential_scanners unique_ports_per_ip
  constructor
  · intro h
    rcases List.mem_map.mp h with ⟨x, hxf, hx1⟩
    rcases List.mem_filter.mp hxf with ⟨hxm, hxth⟩
    rcases List.mem_map.mp hxm with ⟨s, hs, hsx⟩
    subst hsx
    cases hx1
    exact ⟨List.mem_dedup.mp hs, by simpa using hxth⟩
  · rintro ⟨hmem, hth⟩
    refine List.mem_map.mpr
      ⟨(ip, (scanPairs rows).countP (fun q => q.1 == ip)), ?_, rfl⟩
    refine List.mem_filter.mpr ⟨?_, by simpa using hth⟩
    exact List.mem_map.mpr ⟨ip, List.mem_dedup.mpr hmem, rfl⟩

/-- C2: over a non-empty security set and a positive threshold (the default
is 100), `detect_port_scanning` returns normally, and it flags a source IP
if and only if the number of *distinct* destination ports among that
source's TCP SYN rows (protocol 6, flags containing `S`) reaches the
threshold — repeated SYNs to the same port are deduplicated by the first
`groupby` stage before the ports are counted. -/
theorem c2_port_scan_iff (rows : List SRecord) (th : Nat) (ip : String)
    (hrows : rows ≠ []) (hth : 0 < th) :
    detect_port_scanning rows th = Except.ok (potential_scanners rows th) ∧
    (ip ∈ (potential_scanners rows th).map Prod.fst ↔
      th ≤ distinctSynPorts rows ip) := by
  constructor
  · unfold detect_port_scanning
    cases rows with
    | nil => exact absurd rfl hrows
    | cons a t => rfl
  · rw [mem_scanners_iff]
    constructor
    · rintro ⟨-, h⟩
      rwa [scanPairs_countP_eq] at h
    · intro h
      have h' : th ≤ (scanPairs rows).countP (fun q => q.1 == ip) := by
        rwa [scanPairs_countP_eq]
      exact ⟨mem_fst_of_le_countP hth h', h'⟩

/-- C2 applied at a concrete input: source `1.1.1.1` sends SYNs to distinct
ports 10 and 11 — one of them twice — and with threshold 2 it is flagged
(the duplicate SYN to port 10 is not double-counted, and the count of
distinct ports, 2, meets the threshold). -/
theorem c2_witness :
    "1.1.1.1" ∈ (potential_scanners
        [⟨"1.1.1.1", "2.2.2.2", 6, 10, "S", 0⟩, ⟨"1.1.1.1", "2.2.2.2", 6, 11, "S", 1⟩,
         ⟨"1.1.1.1", "2.2.2.2", 6, 10, "S", 2⟩] 2).map Prod.fst :=
  (c2_port_scan_iff
      [⟨"1.1.1.1", "2.2.2.2", 6, 10, "S", 0⟩, ⟨"1.1.1.1", "2.2.2.2", 6, 11, "S", 1⟩,
       ⟨"1.1.1.1", "2.2.2.2", 6, 10, "S", 2⟩] 2 "1.1.1.1"
      (by decide) (by decide)).2.mpr (by decide)

/-! ## Claim theorems: flood detection (C3) -/

/-- Membership in the flood table: a destination is flagged exactly when its
record count divided by the capture time span strictly exceeds the
(non-negative) threshold.  Destinations absent from the rows have count 0,
hence rate 0, and are never flagged for a non-negative threshold. -/
lemma mem_ddos_targets_iff {rows : List SRecord} {th : ℚ} (hth : 0 ≤ th) (d : String) :
    d ∈ ddos_targets rows th ↔
      th < (rows.countP (fun r => r.dst_ip == d) : ℚ) / time_span rows := by
  unfold ddos_targets
  constructor
  · intro h
    exact of_decide_eq_true (List.mem_filter.mp h).2
  · intro h
    refine List.mem_filter.mpr ⟨?_, decide_eq_true h⟩
    rw [List.mem_dedup]
    by_contra hmem
    have hcnt : rows.countP (fun r => r.dst_ip == d) = 0 := by
      rw [List.countP_eq_zero]
      intro r hr hrd
      exact hmem (List.mem_map.mpr ⟨r, hr, beq_iff_eq.mp hrd⟩)
    rw [hcnt] at h
    simp at h
    exact absurd h (not_lt.mpr hth)

/-- C3: over a non-empty security set and a non-negative rate threshold (the
default is 1000), flood detection computes the time span as
`max(timestamp) - min(timestamp)`; a zero span yields an empty result with
no exception, and a non-zero span flags a destination IP if and only if its
record count divided by the span strictly exceeds the threshold. -/
theorem c3_flood_iff (rows : List SRecord) (th : ℚ)
    (hrows : rows ≠ []) (hth : 0 ≤ th) :
    (time_span rows = 0 → detect_ddos rows th = Except.ok []) ∧
    (time_span rows ≠ 0 →
      detect_ddos rows th = Except.ok (ddos_targets rows th) ∧
      ∀ d : String, d ∈ ddos_targets rows th ↔
        th < (rows.countP (fun r => r.dst_ip == d) : ℚ) / time_span rows) := by
  have hne : rows.isEmpty = false := by
    cases rows with
    | nil => exact absurd rfl hrows
    | cons a t => rfl
  constructor
  · intro h0
    simp [detect_ddos, hne, h0]
  · intro h0
    exact ⟨by simp [detect_ddos, hne, h0], fun d => mem_ddos_targets_iff hth d⟩

/-- C3 applied at a concrete input: three packets towards `2.2.2.2` over a
2-second span give rate 1.5, which exceeds threshold 1, so `2.2.2.2` is
flagged. -/
theorem c3_witness :
    "2.2.2.2" ∈ ddos_targets
      [⟨"1.1.1.1", "2.2.2.2", 17, 0, "", 0⟩, ⟨"1.1.1.1", "2.2.2.2", 17, 0, "", 1⟩,
       ⟨"1.1.1.1", "2.2.2.2", 17, 0, "", 2⟩] 1 := by
  have hspan : time_span
      [⟨"1.1.1.1", "2.2.2.2", 17, 0, "", 0⟩, ⟨"1.1.1.1", "2.2.2.2", 17, 0, "", 1⟩,
       ⟨"1.1.1.1", "2.2.2.2", 17, 0, "", 2⟩] = 2 := by
    unfold time_span
    rw [show List.map SRecord.time
        [⟨"1.1.1.1", "2.2.2.2", 17, 0, "", 0⟩, ⟨"1.1.1.1", "2.2.2.2", 17, 0, "", 1⟩,
         ⟨"1.1.1.1", "2.2.2.2", 17, 0, "", 2⟩] = [0, 1, 2] from rfl]
    rw [show ([(0 : ℚ), 1, 2]).maximum = ((2 : ℚ) : WithBot ℚ) by decide]
    rw [show ([(0 : ℚ), 1, 2]).minimum = ((0 : ℚ) : WithTop ℚ) by decide]
    rw [WithBot.unbot'_coe, WithTop.untop'_coe]
    norm_num
  refine (((c3_flood_iff
      [⟨"1.1.1.1", "2.2.2.2", 17, 0, "", 0⟩, ⟨"1.1.1.1", "2.2.2.2", 17, 0, "", 1⟩,
       ⟨"1.1.1.1", "2.2.2.2", 17, 0, "", 2⟩] 1
      (by decide) (by norm_num)).2 (by rw [hspan]; norm_num)).2 "2.2.2.2").mpr ?_
  rw [hspan]
  rw [show List.countP (fun r => r.dst_ip == "2.2.2.2")
      ([⟨"1.1.1.1", "2.2.2.2", 17, 0, "", 0⟩, ⟨"1.1.1.1", "2.2.2.2", 17, 0, "", 1⟩,
        ⟨"1.1.1.1", "2.2.2.2", 17, 0, "", 2⟩] : List SRecord) = 3 from rfl]
  norm_num

/-! ## Claim theorems: per-protocol host-pair shares (C7) -/

/-- C7: for any host pair present among the general-traffic records, the
`Percentage` cells of the per-protocol breakdown — each computed against the
pair's *own* total — sum to exactly 100 over the pair's distinct
protocols. -/
theorem c7_pair_percentages_sum (rs : List GRecord) (s d : String)
    (h : pairCount rs s d ≠ 0) :
    ∑ p in ((rs.filter (fun r => r.src_ip == s && r.dst_ip == d)).map
        (fun r => protocol_name r.protocol)).toFinset,
      pairProtoPercentage rs s d p = 100 := by
  set l := rs.filter (fun r => r.src_ip == s && r.dst_ip == d) with hl
  set S := l.map (fun r => protocol_name r.protocol) with hS
  have hcount : ∀ p : String, pairProtoCount rs s d p = S.count p := by
    intro p
    have h1 : S.count p = l.countP (fun r => protocol_name r.protocol == p) := by
      rw [hS, List.count_eq_countP, List.countP_map]
      rfl
    have h2 : l.countP (fun r => protocol_name r.protocol == p)
        = rs.countP (fun r =>
            (protocol_name r.protocol == p) && (r.src_ip == s && r.dst_ip == d)) := by
      rw [hl, List.countP_filter]
    have h3 : (fun r : GRecord =>
          (protocol_name r.protocol == p) && (r.src_ip == s && r.dst_ip == d))
        = (fun r : GRecord =>
          r.src_ip == s && r.dst_ip == d && protocol_name r.protocol == p) := by
      funext r
      cases hx : (r.src_ip == s) <;> cases hy : (r.dst_ip == d) <;>
        cases hz : (protocol_name r.protocol == p) <;> simp [hx, hy, hz]
    unfold pairProtoCount
    rw [h1, h2, h3]
  have hlen : pairCount rs s d = l.length := by
    rw [hl]
    unfold pairCount
    rw [List.countP_eq_length_filter]
  have hSlen : S.length = l.length := by rw [hS, List.length_map]
  have hlen0 : (l.length : ℚ) ≠ 0 := by
    have hnat : l.length ≠ 0 := by
      rw [← hlen]
      exact h
    exact_mod_cast hnat
  have hsum : ∑ p in S.toFinset, (S.count p : ℚ) = (S.length : ℚ) := by
    have h0 : ∑ p in S.toFinset, S.count p = S.length := by
      simp
    exact_mod_cast h0
  calc ∑ p in S.toFinset, pairProtoPercentage rs s d p
      = ∑ p in S.toFinset, (S.count p : ℚ) / (l.length : ℚ) * 100 := by
        refine Finset.sum_congr rfl fun p hp => ?_
        unfold pairProtoPercentage
        rw [hcount p, hlen]
    _ = (∑ p in S.toFinset, (S.count p : ℚ)) / (l.length : ℚ) * 100 := by
        rw [← Finset.sum_mul, ← Finset.sum_div]
    _ = (S.length : ℚ) / (l.length : ℚ) * 100 := by rw [hsum]
    _ = 100 := by
        rw [hSlen]
        field_simp

/-- C7 applied at a concrete pair of records: the pair `1.1.1.1 → 2.2.2.2`
splits into protocols TCP and UDP, 50% each, and the shares sum to 100. -/
theorem c7_witness :
    ∑ p in ((([⟨"1.1.1.1", "2.2.2.2", 6, 100, 0, 1, 2, "S"⟩,
          ⟨"1.1.1.1", "2.2.2.2", 17, 50, 1, 0, 0, ""⟩] : List GRecord).filter
        (fun r => r.src_ip == "1.1.1.1" && r.dst_ip == "2.2.2.2")).map
        (fun r => protocol_name r.protocol)).toFinset,
      pairProtoPercentage
        [⟨"1.1.1.1", "2.2.2.2", 6, 100, 0, 1, 2, "S"⟩,
         ⟨"1.1.1.1", "2.2.2.2", 17, 50, 1, 0, 0, ""⟩] "1.1.1.1" "2.2.2.2" p = 100 :=
  c7_pair_percentages_sum
    [⟨"1.1.1.1", "2.2.2.2", 6, 100, 0, 1, 2, "S"⟩,
     ⟨"1.1.1.1", "2.2.2.2", 17, 50, 1, 0, 0, ""⟩] "1.1.1.1" "2.2.2.2" (by decide)

/-! ## Claim theorems: order independence (C8) -/

lemma perm_maximum {l₁ l₂ : List ℚ} (h : l₁.Perm l₂) : l₁.maximum = l₂.maximum := by
  induction h with
  | nil => rfl
  | cons a _ ih => rw [List.maximum_cons, List.maximum_cons, ih]
  | swap a b l =>
      rw [List.maximum_cons, List.maximum_cons, List.maximum_cons, List.maximum_cons]
      exact max_left_comm _ _ _
  | trans _ _ ih₁ ih₂ => rw [ih₁, ih₂]

lemma perm_minimum {l₁ l₂ : List ℚ} (h : l₁.Perm l₂) : l₁.minimum = l₂.minimum := by
  induction h with
  | nil => rfl
  | cons a _ ih => rw [List.minimum_cons, List.minimum_cons, ih]
  | swap a b l =>
      rw [List.minimum_cons, List.minimum_cons, List.minimum_cons, List.minimum_cons]
      exact min_left_comm _ _ _
  | trans _ _ ih₁ ih₂ => rw [ih₁, ih₂]

lemma perm_time_span {ss ss' : List SRecord} (h : ss.Perm ss') :
    time_span ss = time_span ss' := by
  unfold time_span
  rw [perm_maximum (h.map SRecord.time), perm_minimum (h.map SRecord.time)]

lemma perm_scan_flag {ss ss' : List SRecord} (h : ss.Perm ss') (th : Nat) (ip : String) :
    (ip ∈ (potential_scanners ss th).map Prod.fst ↔
      ip ∈ (potential_scanners ss' th).map Prod.fst) := by
  rw [mem_scanners_iff, mem_scanners_iff]
  have hp : (scanPairs ss).Perm (scanPairs ss') :=
    ((h.filter _).map _).dedup
  rw [hp.countP_eq]
  constructor
  · rintro ⟨hm, hc⟩
    exact ⟨(hp.map Prod.fst).mem_iff.mp hm, hc⟩
  · rintro ⟨hm, hc⟩
    exact ⟨(hp.map Prod.fst).mem_iff.mpr hm, hc⟩

lemma perm_ddos_targets {ss ss' : List SRecord} (h : ss.Perm ss') (rth : ℚ) (d : String) :
    d ∈ ddos_targets ss rth ↔ d ∈ ddos_targets ss' rth := by
  unfold ddos_targets
  rw [List.mem_filter, List.mem_filter]
  have hspan := perm_time_span h
  have hm : d ∈ (ss.map SRecord.dst_ip).dedup ↔ d ∈ (ss'.map SRecord.dst_ip).dedup :=
    ((h.map SRecord.dst_ip).dedup).mem_iff
  rw [h.countP_eq, hspan, hm]

lemma detect_ddos_perm {ss ss' : List SRecord} (h : ss.Perm ss') (rth : ℚ) :
    ∀ l, detect_ddos ss rth = Except.ok l →
      ∃ l', detect_ddos ss' rth = Except.ok l' ∧ ∀ d, d ∈ l ↔ d ∈ l' := by
  intro l hl
  cases ss with
  | nil => exact absurd hl (by simp [detect_ddos])
  | cons a t =>
      cases ss' with
      | nil =>
          have hlen := h.length_eq
          simp at hlen
      | cons b u =>
          have hspan : time_span (a :: t) = time_span (b :: u) := perm_time_span h
          have hred : ∀ (x : SRecord) (xs : List SRecord),
              detect_ddos (x :: xs) rth
                = if time_span (x :: xs) = 0 then Except.ok []
                  else Except.ok (ddos_targets (x :: xs) rth) := fun x xs => rfl
          rw [hred] at hl
          rw [hred]
          by_cases h0 : time_span (a :: t) = 0
          · rw [if_pos h0] at hl
            rw [if_pos (by rw [← hspan]; exact h0)]
            have hle : l = [] := by
              injection hl with h'
              exact h'.symm
            exact ⟨[], rfl, by rw [hle]; exact fun d => Iff.rfl⟩
          · rw [if_neg h0] at hl
            rw [if_neg (by rw [← hspan]; exact h0)]
            have hle : l = ddos_targets (a :: t) rth := by
              injection hl with h'
              exact h'.symm
            exact ⟨ddos_targets (b :: u) rth, rfl,
              by rw [hle]; exact fun d => perm_ddos_targets h rth d⟩

/-- C8: all aggregation views — protocol counts, host-pair counts,
per-protocol host-pair counts and 5-tuple flow counts, viewed as maps from
group key to count — are invariant under permutation of the general-traffic
records; and the sets of identifiers flagged by port-scan detection and by
flood detection are invariant under permutation of the security records. -/
theorem c8_order_independence :
    (∀ (rs rs' : List GRecord), rs.Perm rs' →
      (∀ p, protocolCount rs p = protocolCount rs' p) ∧
      (∀ s d, pairCount rs s d = pairCount rs' s d) ∧
      (∀ s d p, pairProtoCount rs s d p = pairProtoCount rs' s d p) ∧
      (∀ s d sp dp p, flowCount rs s d sp dp p = flowCount rs' s d sp dp p)) ∧
    (∀ (ss ss' : List SRecord), ss.Perm ss' → ∀ th : Nat, ∀ rth : ℚ,
      (∀ ip, ip ∈ (potential_scanners ss th).map Prod.fst ↔
        ip ∈ (potential_scanners ss' th).map Prod.fst) ∧
      (∀ l, detect_ddos ss rth = Except.ok l →
        ∃ l', detect_ddos ss' rth = Except.ok l' ∧ ∀ d, d ∈ l ↔ d ∈ l')) := by
  constructor
  · intro rs rs' h
    exact ⟨fun p => h.countP_eq _, fun s d => h.countP_eq _,
      fun s d p => h.countP_eq _, fun s d sp dp p => h.countP_eq _⟩
  · intro ss ss' h th rth
    exact ⟨fun ip => perm_scan_flag h th ip, detect_ddos_perm h rth⟩

/-- C8 applied at a concrete two-record list and its transposition. -/
theorem c8_witness :
    protocolCount
        [⟨"1.1.1.1", "2.2.2.2", 6, 100, 0, 1, 2, "S"⟩,
         ⟨"3.3.3.3", "4.4.4.4", 17, 50, 1, 0, 0, ""⟩] "TCP"
      = protocolCount
        [⟨"3.3.3.3", "4.4.4.4", 17, 50, 1, 0, 0, ""⟩,
         ⟨"1.1.1.1", "2.2.2.2", 6, 100, 0, 1, 2, "S"⟩] "TCP" :=
  ((c8_order_independence.1
      [⟨"1.1.1.1", "2.2.2.2", 6, 100, 0, 1, 2, "S"⟩,
       ⟨"3.3.3.3", "4.4.4.4", 17, 50, 1, 0, 0, ""⟩]
      [⟨"3.3.3.3", "4.4.4.4", 17, 50, 1, 0, 0, ""⟩,
       ⟨"1.1.1.1", "2.2.2.2", 6, 100, 0, 1, 2, "S"⟩]
      (List.Perm.swap _ _ _)).1) "TCP"

end NetworkAnalysis
